import Mathlib

/-!
Shallow embedding of the mindspace-backend messaging and auth-delegation
core (src/services/chatService.js, src/services/authService.js).

Modelling conventions:
* MySQL tables (users, chats, refresh_tokens) and the Cosmos/Mongo
  collection chat_messages are lists of rows in insertion order.
* Timestamps (NOW(), new Date()) are Nat values supplied by the caller
  or by an environment record, since the handlers obtain them from the
  clock at fixed program points.
* uuidv4() and MySQL insertId are modelled as fresh-id parameters in an
  environment record: the handler treats them as opaque fresh values.
* The Mongo query sort on created_at descending specifies no tie-break;
  the model resolves ties deterministically by a stable insertion sort
  over the insertion-ordered collection, one admissible store behaviour.
* HTTP responses are a status code plus a structured body mirroring the
  JSON the handlers produce.
-/

/-- Row of the MySQL users table as the chat service reads it. -/
structure ChatUser where
  id : Nat
  deleted_at : Option Nat
  deriving Repr, DecidableEq

/-- Row of the MySQL chats table. -/
structure Chat where
  id : Nat
  participant1_id : Nat
  participant2_id : Nat
  created_at : Nat
  updated_at : Nat
  deleted_at : Option Nat
  deriving Repr, DecidableEq

/-- Document of the chat_messages collection, as built by the send handler. -/
structure Message where
  message_id : Nat
  chat_id : Nat
  sender_id : Nat
  recipient_id : Nat
  content : String
  message_type : String
  is_read : Bool
  read_at : Option Nat
  created_at : Nat
  updated_at : Nat
  deriving Repr, DecidableEq

/-- Combined storage state seen by the chat service: MySQL users and
chats, plus the message collection in insertion order. -/
structure ChatState where
  users : List ChatUser
  chats : List Chat
  messages : List Message
  deriving Repr, DecidableEq

/-- Structured JSON bodies produced by the handlers. -/
inductive Body where
  | error (msg : String)
  | messagesPage (msgs : List Message) (page limit : Nat)
  | sent (messageId : Nat) (timestamp : Nat)
  | chatCreated (chatId : Nat)
  | chatConflict (chatId : Nat)
  deriving Repr, DecidableEq

/-- An HTTP response: status code and JSON body. -/
structure Response where
  status : Nat
  body : Body
  deriving Repr, DecidableEq

/-- The 404 body both chat-scoped endpoints return for a missing chat or
a caller who is not a participant: res.status(404).json with the string
used at chatService.js lines 227 and 275. -/
def notFoundChat : Response :=
  ⟨404, Body.error "Chat not found or access denied"⟩

/-- Membership query shared by both chat-scoped endpoints:
SELECT FROM chats WHERE id = ? AND (participant1_id = ? OR
participant2_id = ?) AND deleted_at IS NULL. -/
def findMemberChat (st : ChatState) (chatId userId : Nat) : List Chat :=
  st.chats.filter (fun c =>
    c.id == chatId && (c.participant1_id == userId || c.participant2_id == userId)
      && c.deleted_at.isNone)

/-- Stable insertion step for the created_at descending sort: an element
moves ahead only of strictly older elements. -/
def insertDescByCreated (m : Message) : List Message → List Message
  | [] => [m]
  | x :: xs =>
    if x.created_at < m.created_at then m :: x :: xs
    else x :: insertDescByCreated m xs

/-- Model of the Mongo sort on created_at: -1. The query names no
tie-break key, so ties keep a deterministic store order (here: reverse
insertion order, produced by this stable right-to-left insertion sort). -/
def sortByCreatedDesc : List Message → List Message
  | [] => []
  | x :: xs => insertDescByCreated x (sortByCreatedDesc xs)

/-- The message fetch of GET /conversations/:chatId/messages: filter by
chat_id, sort created_at descending, then skip (page-1)*limit and take
limit (the Mongo cursor applies skip before limit whatever the call
order). -/
def fetchPage (msgs : List Message) (chatId page limit : Nat) : List Message :=
  ((sortByCreatedDesc (msgs.filter (fun m => m.chat_id == chatId))).drop
    ((page - 1) * limit)).take limit

/-- The updateMany of the fetch handler: set is_read and read_at on every
message of the chat not sent by the reader whose is_read is false. -/
def markReadExcept (msgs : List Message) (chatId readerId now : Nat) : List Message :=
  msgs.map (fun m =>
    if m.chat_id == chatId && m.sender_id != readerId && m.is_read == false
    then { m with is_read := true, read_at := some now }
    else m)

/-- The countDocuments of the conversation-listing handler: messages of
the chat not sent by the reader whose is_read is false. -/
def countUnread (msgs : List Message) (chatId readerId : Nat) : Nat :=
  (msgs.filter (fun m =>
    m.chat_id == chatId && m.sender_id != readerId && m.is_read == false)).length

/-- Handler of GET /conversations/:chatId/messages after authentication:
verify membership (404 on failure), fetch the page, mark unread messages
of other senders read, and return the fetched page reversed. The page in
the response is the pre-update snapshot, as in the code where find
precedes updateMany. -/
def getMessages (st : ChatState) (userId chatId page limit now : Nat) :
    Response × ChatState :=
  match findMemberChat st chatId userId with
  | [] => (notFoundChat, st)
  | _ :: _ =>
    let pageMsgs := fetchPage st.messages chatId page limit
    let messages2 := markReadExcept st.messages chatId userId now
    (⟨200, Body.messagesPage pageMsgs.reverse page limit⟩,
      { st with messages := messages2 })

/-- Socket.IO events emitted by the send handler. -/
inductive Event where
  | receiveMessage (messageId chatId senderId : Nat)
      (content messageType : String) (timestamp : Nat)
  deriving Repr, DecidableEq

/-- Per-call effects of the send handler: the uuidv4 value it generates,
the clock, and whether the MySQL touch and the Socket.IO emit succeed
(a raised error propagates to the express error handler). -/
structure SendEnv where
  freshId : Nat
  now : Nat
  touchOk : Bool
  publishOk : Bool
  deriving Repr, DecidableEq

/-- Whitespace characters removed by the JavaScript String.prototype.trim:
the WhiteSpace and LineTerminator productions (core set plus NBSP and
BOM; further exotic Unicode spaces behave identically for the claims). -/
def isJsWs (c : Char) : Bool :=
  c == ' ' || c == '\t' || c == '\n' || c == '\r'
    || c == Char.ofNat 11 || c == Char.ofNat 12
    || c == Char.ofNat 160 || c == Char.ofNat 65279

/-- Model of content.trim(): strip leading and trailing whitespace. -/
def jsTrim (s : String) : String :=
  ⟨((s.data.dropWhile isJsWs).reverse.dropWhile isJsWs).reverse⟩

/-- The validation guard of the send handler: content is falsy (absent or
the empty string) or trims to the empty string. -/
def contentMissing (content : Option String) : Bool :=
  match content with
  | none => true
  | some s => s == "" || jsTrim s == ""

/-- The 500 response the express error handler produces for an error that
is not a ValidationError, not ER_DUP_ENTRY and has no attached response. -/
def internalError : Response := ⟨500, Body.error "Internal server error"⟩

/-- Handler of POST /conversations/:chatId/messages after authentication.
Validation precedes the membership query; the insert into the message
collection is unconditional (insertOne, no unique index on message_id);
the MySQL touch of chats.updated_at and the Socket.IO emit follow the
insert and are not wrapped in try/catch, so a failure there surfaces the
500 of the error handler while the inserted message stays. -/
def sendMessage (st : ChatState) (userId chatId : Nat) (content : Option String)
    (messageType : Option String) (env : SendEnv) :
    Response × ChatState × List Event :=
  if contentMissing content then
    (⟨400, Body.error "Message content is required"⟩, st, [])
  else
    match findMemberChat st chatId userId with
    | [] => (notFoundChat, st, [])
    | chat :: _ =>
      let c := jsTrim (content.getD "")
      let mt := messageType.getD "text"
      let recipientId :=
        if chat.participant1_id == userId then chat.participant2_id
        else chat.participant1_id
      let msg : Message :=
        { message_id := env.freshId, chat_id := chatId, sender_id := userId,
          recipient_id := recipientId, content := c, message_type := mt,
          is_read := false, read_at := none,
          created_at := env.now, updated_at := env.now }
      let st1 := { st with messages := st.messages ++ [msg] }
      if env.touchOk = false then (internalError, st1, [])
      else
        let st2 := { st1 with chats := st1.chats.map (fun ch =>
          if ch.id == chatId then { ch with updated_at := env.now } else ch) }
        if env.publishOk = false then (internalError, st2, [])
        else
          (⟨201, Body.sent env.freshId env.now⟩, st2,
            [Event.receiveMessage env.freshId chatId userId c mt env.now])

/-- Per-call effects of the conversation-create handler: the MySQL
insertId of the new row and the clock. -/
structure CreateEnv where
  freshChatId : Nat
  now : Nat
  deriving Repr, DecidableEq

/-- Uniqueness query of the create handler: both orderings of the pair,
non-deleted rows only. -/
def findExistingChats (st : ChatState) (userId pid : Nat) : List Chat :=
  st.chats.filter (fun c =>
    ((c.participant1_id == userId && c.participant2_id == pid)
      || (c.participant1_id == pid && c.participant2_id == userId))
      && c.deleted_at.isNone)

/-- Handler of POST /conversations after authentication: validate the
participant id (a falsy id, absent or 0, is rejected), reject self-chats,
require the participant to exist non-deleted, return 409 with the
existing chat id when a row for the pair exists in either ordering, and
otherwise insert a fresh row. -/
def createChat (st : ChatState) (userId : Nat) (participantId : Option Nat)
    (env : CreateEnv) : Response × ChatState :=
  if participantId = none ∨ participantId = some 0 then
    (⟨400, Body.error "Participant ID is required"⟩, st)
  else
    let pid := participantId.getD 0
    if pid = userId then
      (⟨400, Body.error "Cannot create chat with yourself"⟩, st)
    else if (st.users.filter (fun u => u.id == pid && u.deleted_at.isNone)) = [] then
      (⟨404, Body.error "Participant not found"⟩, st)
    else
      match findExistingChats st userId pid with
      | e :: _ => (⟨409, Body.chatConflict e.id⟩, st)
      | [] =>
        let newChat : Chat :=
          { id := env.freshChatId, participant1_id := userId,
            participant2_id := pid, created_at := env.now,
            updated_at := env.now, deleted_at := none }
        (⟨201, Body.chatCreated env.freshChatId⟩,
          { st with chats := st.chats ++ [newChat] })

/-- Outcome of the axios POST to the Token Authority /validate endpoint,
as observed by the chat service: the call either fails to reach the
Authority, or yields a reply with an HTTP status and a JSON body. axios
raises on any status outside the 2xx range, so an error-status reply is
indistinguishable from an unreachable Authority in the catch branch. -/
inductive AuthorityOutcome where
  | unreachable
  | reply (status : Nat) (valid : Bool) (userId : Nat) (email role : String)
  deriving Repr, DecidableEq

/-- Result of the authenticateToken middleware: either the verified
identity placed on req.user, or an early rejection response. -/
inductive AuthResult where
  | ok (userId : Nat) (email role : String)
  | reject (r : Response)
  deriving Repr, DecidableEq

/-- The authenticateToken middleware of the chat service: 401 when the
bearer token is missing, 401 when the Authority replies with a success
status carrying valid = false, and 403 from the catch branch when the
Authority is unreachable or replies with an error status (axios raises
on statuses outside 2xx). -/
def authenticateToken (token : Option String) (authority : AuthorityOutcome) :
    AuthResult :=
  match token with
  | none => AuthResult.reject ⟨401, Body.error "Access token required"⟩
  | some _ =>
    match authority with
    | AuthorityOutcome.unreachable =>
      AuthResult.reject ⟨403, Body.error "Token verification failed"⟩
    | AuthorityOutcome.reply status valid uid email role =>
      if 300 ≤ status then
        AuthResult.reject ⟨403, Body.error "Token verification failed"⟩
      else if valid = false then
        AuthResult.reject ⟨401, Body.error "Invalid token"⟩
      else AuthResult.ok uid email role

/-- GET /conversations/:chatId/messages including the middleware: storage
is only touched after authenticateToken calls next. -/
def guardedGetMessages (token : Option String) (authority : AuthorityOutcome)
    (st : ChatState) (chatId page limit now : Nat) : Response × ChatState :=
  match authenticateToken token authority with
  | AuthResult.reject r => (r, st)
  | AuthResult.ok uid _ _ => getMessages st uid chatId page limit now

/-- POST /conversations/:chatId/messages including the middleware. -/
def guardedSendMessage (token : Option String) (authority : AuthorityOutcome)
    (st : ChatState) (chatId : Nat) (content : Option String)
    (messageType : Option String) (env : SendEnv) :
    Response × ChatState × List Event :=
  match authenticateToken token authority with
  | AuthResult.reject r => (r, st, [])
  | AuthResult.ok uid _ _ => sendMessage st uid chatId content messageType env

/-- Row of the MySQL users table as the auth service reads it. -/
structure AuthUser where
  id : Nat
  email : String
  role : String
  deleted_at : Option Nat
  deriving Repr, DecidableEq

/-- Payload of a signed refresh JWT. exp is the signature-checked expiry;
nonce stands for the issue-time data (iat) that makes distinct issuances
distinct tokens. -/
structure RotTok where
  userId : Nat
  email : String
  role : String
  exp : Nat
  nonce : Nat
  deriving Repr, DecidableEq

/-- Payload of a signed access JWT. -/
structure AccessTok where
  userId : Nat
  email : String
  role : String
  exp : Nat
  deriving Repr, DecidableEq

/-- A presented refresh-token string: either one that fails signature
verification, or a well-signed payload. -/
inductive Presented where
  | malformed
  | signed (t : RotTok)
  deriving Repr, DecidableEq

/-- Row of the MySQL refresh_tokens table. -/
structure TokenRow where
  id : Nat
  user_id : Nat
  token : RotTok
  expires_at : Nat
  deriving Repr, DecidableEq

/-- Storage state of the auth service. -/
structure AuthState where
  users : List AuthUser
  tokens : List TokenRow
  deriving Repr, DecidableEq

/-- Bodies produced by the auth service endpoints. -/
inductive AuthBody where
  | error (msg : String)
  | tokenPair (access : AccessTok) (refresh : RotTok)
  deriving Repr, DecidableEq

/-- An auth service HTTP response. -/
structure AuthResponse where
  status : Nat
  body : AuthBody
  deriving Repr, DecidableEq

/-- Access-token lifetime: expiresIn 15m. -/
def ACCESS_TTL : Nat := 900

/-- Refresh-token lifetime: expiresIn 7d, and DATE_ADD(NOW(), INTERVAL 7
DAY) on the stored row. -/
def REFRESH_TTL : Nat := 604800

/-- The generateTokens helper: a fresh access and refresh pair for the
given identity, stamped from the current clock; nonce carries the
issuance-unique part of the JWT. -/
def generateTokens (userId : Nat) (email role : String) (now nonce : Nat) :
    AccessTok × RotTok :=
  (⟨userId, email, role, now + ACCESS_TTL⟩,
   ⟨userId, email, role, now + REFRESH_TTL, nonce⟩)

/-- The lookup of the refresh handler: SELECT rt.id, u.id, u.email,
u.role FROM refresh_tokens rt JOIN users u ON rt.user_id = u.id WHERE
rt.token = ? AND rt.expires_at > NOW() AND u.deleted_at IS NULL. -/
def findValidTokenRows (st : AuthState) (t : RotTok) (now : Nat) :
    List (TokenRow × AuthUser) :=
  st.tokens.filterMap (fun r =>
    if r.token = t ∧ now < r.expires_at then
      match st.users.find? (fun u => u.id == r.user_id && u.deleted_at.isNone) with
      | some u => some (r, u)
      | none => none
    else none)

/-- Handler of POST /refresh: 401 when the token is absent, fails
signature verification, or is expired by jwt.verify; 401 when no valid
stored row matches it; otherwise mint a fresh pair and UPDATE the matched
row in place with the new token and expiry. -/
def refresh (st : AuthState) (now : Nat) (presented : Option Presented)
    (freshNonce : Nat) : AuthResponse × AuthState :=
  match presented with
  | none => (⟨401, AuthBody.error "Refresh token required"⟩, st)
  | some Presented.malformed => (⟨401, AuthBody.error "Invalid token"⟩, st)
  | some (Presented.signed t) =>
    if t.exp ≤ now then (⟨401, AuthBody.error "Token expired"⟩, st)
    else
      match findValidTokenRows st t now with
      | [] => (⟨401, AuthBody.error "Invalid refresh token"⟩, st)
      | (row, u) :: _ =>
        let pair := generateTokens u.id u.email u.role now freshNonce
        let st1 := { st with tokens := st.tokens.map (fun r =>
          if r.id == row.id then
            { r with token := pair.2, expires_at := now + REFRESH_TTL }
          else r) }
        (⟨200, AuthBody.tokenPair pair.1 pair.2⟩, st1)

/-! Helper lemmas about the modelled store operations. -/

/-- Descending comparison used by the message fetch: earlier list
positions hold newer (or equally new) messages. -/
def descByCreated (a b : Message) : Prop := b.created_at ≤ a.created_at

lemma mem_insertDescByCreated {a m : Message} : ∀ {l : List Message},
    a ∈ insertDescByCreated m l ↔ a = m ∨ a ∈ l := by
  intro l
  induction l with
  | nil => simp [insertDescByCreated]
  | cons x xs ih =>
    simp only [insertDescByCreated]
    split
    · simp [List.mem_cons]
    · simp only [List.mem_cons, ih]
      tauto

lemma length_insertDescByCreated (m : Message) : ∀ (l : List Message),
    (insertDescByCreated m l).length = l.length + 1 := by
  intro l
  induction l with
  | nil => simp [insertDescByCreated]
  | cons x xs ih =>
    simp only [insertDescByCreated]
    split
    · simp
    · simp [ih]

lemma length_sortByCreatedDesc : ∀ (l : List Message),
    (sortByCreatedDesc l).length = l.length := by
  intro l
  induction l with
  | nil => rfl
  | cons x xs ih => simp [sortByCreatedDesc, length_insertDescByCreated, ih]

lemma mem_sortByCreatedDesc {a : Message} : ∀ {l : List Message},
    a ∈ sortByCreatedDesc l ↔ a ∈ l := by
  intro l
  induction l with
  | nil => simp [sortByCreatedDesc]
  | cons x xs ih => simp [sortByCreatedDesc, mem_insertDescByCreated, ih]

lemma pairwise_insertDescByCreated {m : Message} : ∀ {l : List Message},
    List.Pairwise descByCreated l →
    List.Pairwise descByCreated (insertDescByCreated m l) := by
  intro l
  induction l with
  | nil =>
    intro _
    simp [insertDescByCreated, descByCreated]
  | cons x xs ih =>
    intro h
    rw [List.pairwise_cons] at h
    obtain ⟨hx, hxs⟩ := h
    simp only [insertDescByCreated]
    split
    · rename_i hlt
      rw [List.pairwise_cons]
      refine ⟨?_, List.pairwise_cons.mpr ⟨hx, hxs⟩⟩
      intro y hy
      rcases List.mem_cons.mp hy with rfl | hy2
      · exact Nat.le_of_lt hlt
      · exact Nat.le_trans (hx y hy2) (Nat.le_of_lt hlt)
    · rename_i hge
      rw [List.pairwise_cons]
      refine ⟨?_, ih hxs⟩
      intro y hy
      rcases mem_insertDescByCreated.mp hy with rfl | hy2
      · exact Nat.le_of_not_lt hge
      · exact hx y hy2

lemma pairwise_sortByCreatedDesc : ∀ (l : List Message),
    List.Pairwise descByCreated (sortByCreatedDesc l) := by
  intro l
  induction l with
  | nil => simp [sortByCreatedDesc]
  | cons x xs ih => exact pairwise_insertDescByCreated ih

lemma pairwise_fetchPage (msgs : List Message) (chatId page limit : Nat) :
    List.Pairwise descByCreated (fetchPage msgs chatId page limit) := by
  unfold fetchPage
  exact List.Pairwise.sublist
    ((List.take_sublist _ _).trans (List.drop_sublist _ _))
    (pairwise_sortByCreatedDesc _)

/-- Claim C4 theorem: for a participant, the returned page is the
newest-first fetched page reversed, and is ordered oldest-to-newest by
creation timestamp (non-strictly; the query has no id tie-break, see the
counterexample). -/
theorem listByConversation_sorted_asc (st : ChatState)
    (uid chatId page limit now : Nat) (chat : Chat) (rest : List Chat)
    (hmem : findMemberChat st chatId uid = chat :: rest) :
    (getMessages st uid chatId page limit now).1 =
      ⟨200, Body.messagesPage
        ((fetchPage st.messages chatId page limit).reverse) page limit⟩ ∧
    List.Pairwise (fun a b => a.created_at ≤ b.created_at)
      ((fetchPage st.messages chatId page limit).reverse) := by
  constructor
  · simp [getMessages, hmem]
  · rw [List.pairwise_reverse]
    exact pairwise_fetchPage st.messages chatId page limit

/-- Claim C4 witness: a concrete two-message conversation whose page
comes back sorted ascending by timestamp. -/
theorem listByConversation_sorted_asc_witness :
    (getMessages ⟨[⟨1, none⟩, ⟨2, none⟩], [⟨10, 1, 2, 0, 0, none⟩],
        [⟨7, 10, 1, 2, "a", "text", false, none, 4, 4⟩,
         ⟨3, 10, 1, 2, "b", "text", false, none, 5, 5⟩]⟩ 2 10 1 50 9).1 =
      ⟨200, Body.messagesPage
        [⟨7, 10, 1, 2, "a", "text", false, none, 4, 4⟩,
         ⟨3, 10, 1, 2, "b", "text", false, none, 5, 5⟩] 1 50⟩ ∧
    List.Pairwise (fun a b : Message => a.created_at ≤ b.created_at)
      [⟨7, 10, 1, 2, "a", "text", false, none, 4, 4⟩,
       ⟨3, 10, 1, 2, "b", "text", false, none, 5, 5⟩] := by
  have h := listByConversation_sorted_asc
    ⟨[⟨1, none⟩, ⟨2, none⟩], [⟨10, 1, 2, 0, 0, none⟩],
      [⟨7, 10, 1, 2, "a", "text", false, none, 4, 4⟩,
       ⟨3, 10, 1, 2, "b", "text", false, none, 5, 5⟩]⟩ 2 10 1 50 9
    ⟨10, 1, 2, 0, 0, none⟩ [] (by decide)
  refine ⟨?_, ?_⟩
  · rw [h.1]
    decide
  · have h2 := h.2
    revert h2
    decide

/-- Claim C4 counterexample: two messages sharing a creation timestamp
come back in store order, not in message-id order: the page is the
reversed newest-first fetch only, with no id tie-break in the sort, so
the spec-side ordering (timestamp, then id) fails on it. -/
theorem listByConversation_tiebreak_counterexample :
    (getMessages ⟨[⟨1, none⟩, ⟨2, none⟩], [⟨10, 1, 2, 0, 0, none⟩],
        [⟨7, 10, 1, 2, "a", "text", false, none, 5, 5⟩,
         ⟨3, 10, 1, 2, "b", "text", false, none, 5, 5⟩]⟩ 2 10 1 50 9).1 =
      ⟨200, Body.messagesPage
        [⟨7, 10, 1, 2, "a", "text", false, none, 5, 5⟩,
         ⟨3, 10, 1, 2, "b", "text", false, none, 5, 5⟩] 1 50⟩ ∧
    ¬ List.Pairwise (fun a b : Message =>
        a.created_at < b.created_at ∨
          (a.created_at = b.created_at ∧ a.message_id ≤ b.message_id))
      [⟨7, 10, 1, 2, "a", "text", false, none, 5, 5⟩,
       ⟨3, 10, 1, 2, "b", "text", false, none, 5, 5⟩] := by
  constructor
  · decide
  · decide

/-- Claim C8 theorem: after markReadExcept runs for a reader, the unread
count of that reader on the conversation is 0; messages the reader sent
are left untouched at their positions; and the unread count never counts
messages the reader sent (restricting the collection to messages of
other senders leaves the count unchanged). -/
theorem markReadExcept_countUnread_zero (msgs : List Message)
    (chatId reader now : Nat) :
    countUnread (markReadExcept msgs chatId reader now) chatId reader = 0 ∧
    (∀ i : Nat, ∀ hi : i < msgs.length, msgs[i].sender_id = reader →
      (markReadExcept msgs chatId reader now)[i]? = some msgs[i]) ∧
    countUnread (msgs.filter (fun m => m.sender_id != reader)) chatId reader =
      countUnread msgs chatId reader := by
  refine ⟨?_, ?_, ?_⟩
  · unfold countUnread markReadExcept
    rw [List.filter_map, List.length_map]
    rw [List.length_eq_zero]
    rw [List.filter_eq_nil_iff]
    intro a _
    simp only [Function.comp]
    by_cases hcond :
        (a.chat_id == chatId && a.sender_id != reader && a.is_read == false) = true
    · rw [if_pos hcond]
      simp
    · rw [if_neg (by simpa using hcond)]
      simpa using hcond
  · intro i hi hsend
    unfold markReadExcept
    rw [List.getElem?_map, List.getElem?_eq_getElem hi]
    simp [hsend]
  · unfold countUnread
    rw [List.filter_filter]
    congr 1
    apply List.filter_congr
    intro a _
    by_cases hs : (a.sender_id != reader) = true
    · simp [hs]
    · simp only [Bool.not_eq_true] at hs
      simp [hs]

/-- Claim C8 witness: a concrete conversation where the reader ends with
zero unread and the message the reader sent keeps its unread flag. -/
theorem markReadExcept_countUnread_zero_witness :
    countUnread (markReadExcept
      [⟨7, 10, 1, 2, "a", "text", false, none, 4, 4⟩,
       ⟨8, 10, 2, 1, "b", "text", false, none, 5, 5⟩] 10 2 9) 10 2 = 0 ∧
    (markReadExcept
      [⟨7, 10, 1, 2, "a", "text", false, none, 4, 4⟩,
       ⟨8, 10, 2, 1, "b", "text", false, none, 5, 5⟩] 10 2 9)[1]? =
      some ⟨8, 10, 2, 1, "b", "text", false, none, 5, 5⟩ := by
  have h := markReadExcept_countUnread_zero
    [⟨7, 10, 1, 2, "a", "text", false, none, 4, 4⟩,
     ⟨8, 10, 2, 1, "b", "text", false, none, 5, 5⟩] 10 2 9
  exact ⟨h.1, h.2.1 1 (by decide) (by decide)⟩

/-- Mutating operations the system ever applies to the chat_messages
collection: the insertOne of the send handler and the updateMany of the
fetch handler. Every other access (find, countDocuments) is read-only. -/
inductive LogOp where
  | append (m : Message)
  | markRead (chatId readerId now : Nat)
  deriving Repr, DecidableEq

/-- Effect of a mutating operation on the message collection. -/
def applyLogOp (op : LogOp) (msgs : List Message) : List Message :=
  match op with
  | LogOp.append m => msgs ++ [m]
  | LogOp.markRead chatId readerId now => markReadExcept msgs chatId readerId now

/-- Fields of a stored message outside the read flag and the read
timestamp (updated_at is also never rewritten after insertion). -/
def immutablePart (m : Message) :
    Nat × Nat × Nat × Nat × String × String × Nat × Nat :=
  (m.message_id, m.chat_id, m.sender_id, m.recipient_id, m.content,
    m.message_type, m.created_at, m.updated_at)

/-- Claim C9 theorem: every mutating operation of the system on the
message collection preserves each stored message at its position up to
the read flag and read timestamp. -/
theorem message_immutable_fields (op : LogOp) (msgs : List Message) (i : Nat)
    (hi : i < msgs.length) :
    ∃ hi2 : i < (applyLogOp op msgs).length,
      immutablePart ((applyLogOp op msgs)[i]) = immutablePart msgs[i] := by
  cases op with
  | append m =>
    refine ⟨by simp [applyLogOp]; omega, ?_⟩
    simp only [applyLogOp]
    rw [List.getElem_append_left hi]
  | markRead chatId readerId now =>
    refine ⟨by simpa [applyLogOp, markReadExcept] using hi, ?_⟩
    simp only [applyLogOp, markReadExcept, List.getElem_map]
    split
    · rfl
    · rfl

/-- Claim C9 witness: both operations evaluated on a concrete collection
leave the immutable fields of the first stored message intact. -/
theorem message_immutable_fields_witness :
    (∃ hi2 : 0 < (applyLogOp (LogOp.append ⟨8, 10, 2, 1, "b", "text", false, none, 5, 5⟩)
        [⟨7, 10, 1, 2, "a", "text", false, none, 4, 4⟩]).length,
      immutablePart ((applyLogOp (LogOp.append ⟨8, 10, 2, 1, "b", "text", false, none, 5, 5⟩)
        [⟨7, 10, 1, 2, "a", "text", false, none, 4, 4⟩])[0]) =
        immutablePart (⟨7, 10, 1, 2, "a", "text", false, none, 4, 4⟩ : Message)) ∧
    (∃ hi2 : 0 < (applyLogOp (LogOp.markRead 10 2 9)
        [⟨7, 10, 1, 2, "a", "text", false, none, 4, 4⟩]).length,
      immutablePart ((applyLogOp (LogOp.markRead 10 2 9)
        [⟨7, 10, 1, 2, "a", "text", false, none, 4, 4⟩])[0]) =
        immutablePart (⟨7, 10, 1, 2, "a", "text", false, none, 4, 4⟩ : Message)) := by
  constructor
  · have h := message_immutable_fields
      (LogOp.append ⟨8, 10, 2, 1, "b", "text", false, none, 5, 5⟩)
      [⟨7, 10, 1, 2, "a", "text", false, none, 4, 4⟩] 0 (by decide)
    simpa using h
  · have h := message_immutable_fields (LogOp.markRead 10 2 9)
      [⟨7, 10, 1, 2, "a", "text", false, none, 4, 4⟩] 0 (by decide)
    simpa using h

lemma findMemberChat_eq_nil_of_absent (st : ChatState) (chatId uid : Nat)
    (habsent : ∀ c ∈ st.chats, c.id ≠ chatId) :
    findMemberChat st chatId uid = [] := by
  rw [findMemberChat, List.filter_eq_nil_iff]
  intro c hc
  simp only [Bool.and_eq_true, beq_iff_eq]
  intro h
  exact absurd h.1.1 (habsent c hc)

/-- Claim C6 theorem: when the membership query is empty for the caller
(the chat id does not exist, is soft-deleted, or the caller is not one
of its participants), both chat-scoped endpoints return the one fixed
404 response without touching storage, and that response coincides with
the one produced on any state where the chat id does not exist at all. -/
theorem chat_endpoints_not_found_indistinguishable (st st2 : ChatState)
    (uid uid2 chatId page limit now page2 limit2 now2 : Nat)
    (content content2 : Option String) (mt mt2 : Option String)
    (env env2 : SendEnv)
    (hmem : findMemberChat st chatId uid = [])
    (habsent : ∀ c ∈ st2.chats, c.id ≠ chatId)
    (hc : contentMissing content = false)
    (hc2 : contentMissing content2 = false) :
    getMessages st uid chatId page limit now = (notFoundChat, st) ∧
    sendMessage st uid chatId content mt env = (notFoundChat, st, []) ∧
    (getMessages st uid chatId page limit now).1 =
      (getMessages st2 uid2 chatId page2 limit2 now2).1 ∧
    (sendMessage st uid chatId content mt env).1 =
      (sendMessage st2 uid2 chatId content2 mt2 env2).1 := by
  have h2 : findMemberChat st2 chatId uid2 = [] :=
    findMemberChat_eq_nil_of_absent st2 chatId uid2 habsent
  refine ⟨?_, ?_, ?_, ?_⟩
  · simp [getMessages, hmem]
  · simp [sendMessage, hc, hmem]
  · simp [getMessages, hmem, h2]
  · simp [sendMessage, hc, hc2, hmem, h2]

/-- Claim C6 witness: an outsider (user 3) querying an existing chat of
users 1 and 2 gets the same 404 as anyone querying a state with no such
chat. -/
theorem chat_endpoints_not_found_indistinguishable_witness :
    getMessages ⟨[⟨1, none⟩, ⟨2, none⟩, ⟨3, none⟩], [⟨10, 1, 2, 0, 0, none⟩], []⟩
      3 10 1 50 9 =
      (notFoundChat, ⟨[⟨1, none⟩, ⟨2, none⟩, ⟨3, none⟩], [⟨10, 1, 2, 0, 0, none⟩], []⟩) ∧
    sendMessage ⟨[⟨1, none⟩, ⟨2, none⟩, ⟨3, none⟩], [⟨10, 1, 2, 0, 0, none⟩], []⟩
      3 10 (some "hi") none ⟨100, 5, true, true⟩ =
      (notFoundChat, ⟨[⟨1, none⟩, ⟨2, none⟩, ⟨3, none⟩], [⟨10, 1, 2, 0, 0, none⟩], []⟩, []) ∧
    (getMessages ⟨[⟨1, none⟩, ⟨2, none⟩, ⟨3, none⟩], [⟨10, 1, 2, 0, 0, none⟩], []⟩
      3 10 1 50 9).1 =
      (getMessages ⟨[], [], []⟩ 1 10 1 50 9).1 := by
  have h := chat_endpoints_not_found_indistinguishable
    ⟨[⟨1, none⟩, ⟨2, none⟩, ⟨3, none⟩], [⟨10, 1, 2, 0, 0, none⟩], []⟩
    ⟨[], [], []⟩ 3 1 10 1 50 9 1 50 9 (some "hi") (some "hi") none none
    ⟨100, 5, true, true⟩ ⟨100, 5, true, true⟩
    (by decide) (by decide) (by decide) (by decide)
  exact ⟨h.1, h.2.1, h.2.2.1⟩

/-- Claim C10 theorem: missing, empty or whitespace-only content is
rejected with the 400 validation response before any storage access, and
an accepted send stores and broadcasts exactly the trimmed content. -/
theorem sendMessage_validation_and_trim (st : ChatState) (uid chatId : Nat)
    (content : Option String) (mt : Option String) (env : SendEnv)
    (chat : Chat) (rest : List Chat) :
    (contentMissing content = true →
      sendMessage st uid chatId content mt env =
        (⟨400, Body.error "Message content is required"⟩, st, [])) ∧
    (contentMissing content = false →
      findMemberChat st chatId uid = chat :: rest →
      env.touchOk = true → env.publishOk = true →
      ∃ msg : Message,
        (sendMessage st uid chatId content mt env).2.1.messages =
          st.messages ++ [msg] ∧
        msg.content = jsTrim (content.getD "") ∧
        (sendMessage st uid chatId content mt env).2.2 =
          [Event.receiveMessage env.freshId chatId uid
            (jsTrim (content.getD "")) (mt.getD "text") env.now] ∧
        (sendMessage st uid chatId content mt env).1.status = 201) := by
  constructor
  · intro h
    simp [sendMessage, h]
  · intro hcontent hmem ht hp
    refine ⟨⟨env.freshId, chatId, uid,
      (if chat.participant1_id == uid then chat.participant2_id
        else chat.participant1_id),
      jsTrim (content.getD ""), mt.getD "text", false, none, env.now, env.now⟩,
      ?_, rfl, ?_, ?_⟩ <;>
      simp [sendMessage, hcontent, hmem, ht, hp]

/-- Claim C10 witness: whitespace-only content is rejected; content with
surrounding whitespace is stored and broadcast trimmed. -/
theorem sendMessage_validation_and_trim_witness :
    sendMessage ⟨[⟨1, none⟩, ⟨2, none⟩], [⟨10, 1, 2, 0, 0, none⟩], []⟩
      1 10 (some "   ") none ⟨100, 5, true, true⟩ =
      (⟨400, Body.error "Message content is required"⟩,
        ⟨[⟨1, none⟩, ⟨2, none⟩], [⟨10, 1, 2, 0, 0, none⟩], []⟩, []) ∧
    ∃ msg : Message,
      (sendMessage ⟨[⟨1, none⟩, ⟨2, none⟩], [⟨10, 1, 2, 0, 0, none⟩], []⟩
        1 10 (some "  hi ") none ⟨100, 5, true, true⟩).2.1.messages = [msg] ∧
      msg.content = "hi" ∧
      (sendMessage ⟨[⟨1, none⟩, ⟨2, none⟩], [⟨10, 1, 2, 0, 0, none⟩], []⟩
        1 10 (some "  hi ") none ⟨100, 5, true, true⟩).2.2 =
        [Event.receiveMessage 100 10 1 "hi" "text" 5] := by
  constructor
  · have h := (sendMessage_validation_and_trim
      ⟨[⟨1, none⟩, ⟨2, none⟩], [⟨10, 1, 2, 0, 0, none⟩], []⟩ 1 10
      (some "   ") none ⟨100, 5, true, true⟩ ⟨10, 1, 2, 0, 0, none⟩ []).1
    exact h (by decide)
  · have h := (sendMessage_validation_and_trim
      ⟨[⟨1, none⟩, ⟨2, none⟩], [⟨10, 1, 2, 0, 0, none⟩], []⟩ 1 10
      (some "  hi ") none ⟨100, 5, true, true⟩ ⟨10, 1, 2, 0, 0, none⟩ []).2
      (by decide) (by decide) rfl rfl
    obtain ⟨msg, h1, h2, h3, _⟩ := h
    refine ⟨msg, by simpa using h1, by rw [h2]; decide, by rw [h3]; decide⟩

lemma findExistingChats_symm (st : ChatState) (a b : Nat) :
    findExistingChats st a b = findExistingChats st b a := by
  unfold findExistingChats
  apply List.filter_congr
  intro c _
  cases h1 : (c.participant1_id == a && c.participant2_id == b) <;>
    cases h2 : (c.participant1_id == b && c.participant2_id == a) <;>
      simp [h1, h2]

/-- Claim C5 theorem: in the sequential case, once a conversation for a
valid pair of distinct existing users has been created, a second create
call in either participant order returns 409 carrying the existing id
and leaves the chats table unchanged, and exactly one non-deleted row
for the unordered pair exists. -/
theorem createChat_conflict_on_second (st : ChatState) (u p : Nat)
    (env1 env2 env3 : CreateEnv)
    (hp0 : p ≠ 0) (hu0 : u ≠ 0) (hne : p ≠ u)
    (hpex : st.users.filter (fun x => x.id == p && x.deleted_at.isNone) ≠ [])
    (huex : st.users.filter (fun x => x.id == u && x.deleted_at.isNone) ≠ [])
    (hnochat : findExistingChats st u p = []) :
    (createChat st u (some p) env1).1 = ⟨201, Body.chatCreated env1.freshChatId⟩ ∧
    createChat (createChat st u (some p) env1).2 u (some p) env2 =
      (⟨409, Body.chatConflict env1.freshChatId⟩, (createChat st u (some p) env1).2) ∧
    createChat (createChat st u (some p) env1).2 p (some u) env3 =
      (⟨409, Body.chatConflict env1.freshChatId⟩, (createChat st u (some p) env1).2) ∧
    (findExistingChats (createChat st u (some p) env1).2 u p).length = 1 := by
  have hnusym : u ≠ p := fun h => hne h.symm
  have hfirst : createChat st u (some p) env1 =
      (⟨201, Body.chatCreated env1.freshChatId⟩,
        { st with chats := st.chats ++
          [⟨env1.freshChatId, u, p, env1.now, env1.now, none⟩] }) := by
    simp [createChat, hp0, hne, hpex, hnochat]
  have hnew : findExistingChats
      { st with chats := st.chats ++
        [⟨env1.freshChatId, u, p, env1.now, env1.now, none⟩] } u p =
      [⟨env1.freshChatId, u, p, env1.now, env1.now, none⟩] := by
    unfold findExistingChats at hnochat ⊢
    rw [List.filter_append, hnochat]
    simp
  have hnew2 : findExistingChats
      { st with chats := st.chats ++
        [⟨env1.freshChatId, u, p, env1.now, env1.now, none⟩] } p u =
      [⟨env1.freshChatId, u, p, env1.now, env1.now, none⟩] := by
    rw [findExistingChats_symm]
    exact hnew
  refine ⟨by rw [hfirst], ?_, ?_, ?_⟩
  · rw [hfirst]
    simp [createChat, hp0, hne, hpex, hnew]
  · rw [hfirst]
    simp [createChat, hu0, hnusym, huex, hnew2]
  · rw [hfirst, hnew]
    rfl

/-- Claim C5 witness: users 1 and 2 with no prior conversation; the
first create yields id 10, and repeats in both orders yield 409 with
chat id 10 and no new row. -/
theorem createChat_conflict_on_second_witness :
    (createChat ⟨[⟨1, none⟩, ⟨2, none⟩], [], []⟩ 1 (some 2) ⟨10, 3⟩).1 =
      ⟨201, Body.chatCreated 10⟩ ∧
    createChat (createChat ⟨[⟨1, none⟩, ⟨2, none⟩], [], []⟩ 1 (some 2) ⟨10, 3⟩).2
      1 (some 2) ⟨11, 4⟩ =
      (⟨409, Body.chatConflict 10⟩,
        (createChat ⟨[⟨1, none⟩, ⟨2, none⟩], [], []⟩ 1 (some 2) ⟨10, 3⟩).2) ∧
    createChat (createChat ⟨[⟨1, none⟩, ⟨2, none⟩], [], []⟩ 1 (some 2) ⟨10, 3⟩).2
      2 (some 1) ⟨12, 5⟩ =
      (⟨409, Body.chatConflict 10⟩,
        (createChat ⟨[⟨1, none⟩, ⟨2, none⟩], [], []⟩ 1 (some 2) ⟨10, 3⟩).2) := by
  have h := createChat_conflict_on_second ⟨[⟨1, none⟩, ⟨2, none⟩], [], []⟩ 1 2
    ⟨10, 3⟩ ⟨11, 4⟩ ⟨12, 5⟩ (by decide) (by decide) (by decide)
    (by decide) (by decide) (by decide)
  exact ⟨h.1, h.2.1, h.2.2.1⟩

lemma findMemberChat_after_touch (st : ChatState) (chatId uid tnow : Nat)
    (msgs2 : List Message) :
    findMemberChat
      ⟨st.users,
        st.chats.map (fun ch =>
          if ch.id == chatId then { ch with updated_at := tnow } else ch),
        msgs2⟩ chatId uid =
      (findMemberChat st chatId uid).map (fun ch =>
        if ch.id == chatId then { ch with updated_at := tnow } else ch) := by
  unfold findMemberChat
  rw [List.filter_map]
  congr 1
  apply List.filter_congr
  intro c _
  by_cases h : (c.id == chatId) = true
  · simp [Function.comp, h]
  · simp only [Bool.not_eq_true] at h
    simp [Function.comp, h]

/-- Claim C1 (amended) theorem: the send handler accepts no client
message id; each call mints its own uuid and appends unconditionally, so
a client retry of the same request appends a second stored message while
both calls return 201. -/
theorem sendMessage_retry_stores_two (st : ChatState) (uid chatId : Nat)
    (content : Option String) (mt : Option String) (env1 env2 : SendEnv)
    (chat : Chat) (rest : List Chat)
    (hcontent : contentMissing content = false)
    (hmem : findMemberChat st chatId uid = chat :: rest)
    (ht1 : env1.touchOk = true) (hp1 : env1.publishOk = true)
    (ht2 : env2.touchOk = true) (hp2 : env2.publishOk = true) :
    (sendMessage st uid chatId content mt env1).1.status = 201 ∧
    (sendMessage (sendMessage st uid chatId content mt env1).2.1
      uid chatId content mt env2).1.status = 201 ∧
    (sendMessage (sendMessage st uid chatId content mt env1).2.1
      uid chatId content mt env2).2.1.messages.length =
      st.messages.length + 2 := by
  have hfirst : (sendMessage st uid chatId content mt env1).2.1 =
      ⟨st.users,
        st.chats.map (fun ch =>
          if ch.id == chatId then { ch with updated_at := env1.now } else ch),
        st.messages ++
          [⟨env1.freshId, chatId, uid,
            (if chat.participant1_id == uid then chat.participant2_id
              else chat.participant1_id),
            jsTrim (content.getD ""), mt.getD "text", false, none,
            env1.now, env1.now⟩]⟩ := by
    simp [sendMessage, hcontent, hmem, ht1, hp1]
  have hstat1 : (sendMessage st uid chatId content mt env1).1.status = 201 := by
    simp [sendMessage, hcontent, hmem, ht1, hp1]
  have hmem2 := findMemberChat_after_touch st chatId uid env1.now
    (st.messages ++
      [⟨env1.freshId, chatId, uid,
        (if chat.participant1_id == uid then chat.participant2_id
          else chat.participant1_id),
        jsTrim (content.getD ""), mt.getD "text", false, none,
        env1.now, env1.now⟩])
  rw [hmem, List.map_cons] at hmem2
  have hmem2' : findMemberChat (sendMessage st uid chatId content mt env1).2.1
      chatId uid =
      (if chat.id == chatId then { chat with updated_at := env1.now } else chat) ::
        rest.map (fun ch =>
          if ch.id == chatId then { ch with updated_at := env1.now } else ch) := by
    rw [hfirst]
    exact hmem2
  have key : ∀ (X : ChatState) (chat2 : Chat) (rest2 : List Chat),
      findMemberChat X chatId uid = chat2 :: rest2 →
      X.messages.length = st.messages.length + 1 →
      (sendMessage X uid chatId content mt env2).1.status = 201 ∧
      (sendMessage X uid chatId content mt env2).2.1.messages.length =
        st.messages.length + 2 := by
    intro X chat2 rest2 hm hXlen
    have hex : ∃ m2 : Message,
        (sendMessage X uid chatId content mt env2).2.1.messages =
          X.messages ++ [m2] := by
      refine ⟨⟨env2.freshId, chatId, uid,
        (if chat2.participant1_id == uid then chat2.participant2_id
          else chat2.participant1_id),
        jsTrim (content.getD ""), mt.getD "text", false, none,
        env2.now, env2.now⟩, ?_⟩
      simp [sendMessage, hcontent, hm, ht2, hp2]
    obtain ⟨m2, hm2eq⟩ := hex
    refine ⟨by simp [sendMessage, hcontent, hm, ht2, hp2], ?_⟩
    rw [hm2eq, List.length_append, hXlen]
    simp
  have hXlen : (sendMessage st uid chatId content mt env1).2.1.messages.length =
      st.messages.length + 1 := by
    rw [hfirst]
    simp
  have hk := key (sendMessage st uid chatId content mt env1).2.1 _ _ hmem2' hXlen
  exact ⟨hstat1, hk.1, hk.2⟩

/-- Claim C1 (amended) witness: a concrete retry of the same request,
with the fresh-id source even yielding the identical id, stores two
messages and returns 201 twice. -/
theorem sendMessage_retry_stores_two_witness :
    (sendMessage ⟨[⟨1, none⟩, ⟨2, none⟩], [⟨10, 1, 2, 0, 0, none⟩], []⟩
      1 10 (some "hi") none ⟨100, 5, true, true⟩).1.status = 201 ∧
    (sendMessage
      (sendMessage ⟨[⟨1, none⟩, ⟨2, none⟩], [⟨10, 1, 2, 0, 0, none⟩], []⟩
        1 10 (some "hi") none ⟨100, 5, true, true⟩).2.1
      1 10 (some "hi") none ⟨100, 5, true, true⟩).1.status = 201 ∧
    (sendMessage
      (sendMessage ⟨[⟨1, none⟩, ⟨2, none⟩], [⟨10, 1, 2, 0, 0, none⟩], []⟩
        1 10 (some "hi") none ⟨100, 5, true, true⟩).2.1
      1 10 (some "hi") none ⟨100, 5, true, true⟩).2.1.messages.length = 2 := by
  have h := sendMessage_retry_stores_two
    ⟨[⟨1, none⟩, ⟨2, none⟩], [⟨10, 1, 2, 0, 0, none⟩], []⟩ 1 10 (some "hi") none
    ⟨100, 5, true, true⟩ ⟨100, 5, true, true⟩ ⟨10, 1, 2, 0, 0, none⟩ []
    (by decide) (by decide) rfl rfl rfl rfl
  exact h

/-- Claim C1 counterexample: two sends of the same request, with the id
generator even repeating the same id 100, leave two stored messages, not
one, refuting idempotence of a client retry. -/
theorem sendMessage_retry_counterexample :
    (sendMessage
      (sendMessage ⟨[⟨1, none⟩, ⟨2, none⟩], [⟨10, 1, 2, 0, 0, none⟩], []⟩
        1 10 (some "hi") none ⟨100, 5, true, true⟩).2.1
      1 10 (some "hi") none ⟨100, 5, true, true⟩).2.1.messages.length ≠ 1 ∧
    (sendMessage
      (sendMessage ⟨[⟨1, none⟩, ⟨2, none⟩], [⟨10, 1, 2, 0, 0, none⟩], []⟩
        1 10 (some "hi") none ⟨100, 5, true, true⟩).2.1
      1 10 (some "hi") none ⟨100, 5, true, true⟩).2.1.messages.length = 2 := by
  constructor
  · decide
  · decide

lemma mem_fetchPage_page_one {m : Message} {msgs : List Message} {chatId : Nat}
    (hchat : m.chat_id = chatId) (hm : m ∈ msgs) :
    m ∈ fetchPage msgs chatId 1 msgs.length := by
  unfold fetchPage
  have hlen : (sortByCreatedDesc
      (msgs.filter (fun x => x.chat_id == chatId))).length ≤ msgs.length := by
    rw [length_sortByCreatedDesc]
    exact List.length_filter_le _ _
  rw [show (1 - 1) * msgs.length = 0 by simp, List.drop_zero,
    List.take_of_length_le hlen]
  exact mem_sortByCreatedDesc.mpr (List.mem_filter.mpr ⟨hm, by simp [hchat]⟩)

/-- Claim C2 (amended) theorem: when the MySQL touch raises after the
insert succeeded, the caller receives the 500 error response, not the
success response, yet the inserted message remains stored and shows up
in a listByConversation fetch of the conversation. -/
theorem sendMessage_touch_failure_preserves_message (st : ChatState)
    (uid chatId : Nat) (content : Option String) (mt : Option String)
    (env : SendEnv) (chat : Chat) (rest : List Chat)
    (hcontent : contentMissing content = false)
    (hmem : findMemberChat st chatId uid = chat :: rest)
    (ht : env.touchOk = false) :
    (sendMessage st uid chatId content mt env).1 = internalError ∧
    ∃ msg : Message,
      (sendMessage st uid chatId content mt env).2.1.messages =
        st.messages ++ [msg] ∧
      msg.message_id = env.freshId ∧
      msg ∈ fetchPage (sendMessage st uid chatId content mt env).2.1.messages
        chatId 1 (sendMessage st uid chatId content mt env).2.1.messages.length := by
  have hshape : (sendMessage st uid chatId content mt env).2.1.messages =
      st.messages ++
        [⟨env.freshId, chatId, uid,
          (if chat.participant1_id == uid then chat.participant2_id
            else chat.participant1_id),
          jsTrim (content.getD ""), mt.getD "text", false, none,
          env.now, env.now⟩] := by
    simp [sendMessage, hcontent, hmem, ht]
  refine ⟨by simp [sendMessage, hcontent, hmem, ht], ?_⟩
  refine ⟨⟨env.freshId, chatId, uid,
    (if chat.participant1_id == uid then chat.participant2_id
      else chat.participant1_id),
    jsTrim (content.getD ""), mt.getD "text", false, none,
    env.now, env.now⟩, hshape, rfl, ?_⟩
  apply mem_fetchPage_page_one rfl
  rw [hshape]
  simp

/-- Claim C2 (amended) witness: a concrete send whose touch fails
returns 500 while the message with id 100 is stored and fetchable. -/
theorem sendMessage_touch_failure_preserves_message_witness :
    (sendMessage ⟨[⟨1, none⟩, ⟨2, none⟩], [⟨10, 1, 2, 0, 0, none⟩], []⟩
      1 10 (some "hi") none ⟨100, 5, false, true⟩).1 = internalError ∧
    ∃ msg : Message,
      (sendMessage ⟨[⟨1, none⟩, ⟨2, none⟩], [⟨10, 1, 2, 0, 0, none⟩], []⟩
        1 10 (some "hi") none ⟨100, 5, false, true⟩).2.1.messages = [msg] ∧
      msg.message_id = 100 := by
  have h := sendMessage_touch_failure_preserves_message
    ⟨[⟨1, none⟩, ⟨2, none⟩], [⟨10, 1, 2, 0, 0, none⟩], []⟩ 1 10 (some "hi") none
    ⟨100, 5, false, true⟩ ⟨10, 1, 2, 0, 0, none⟩ [] (by decide) (by decide) rfl
  obtain ⟨h1, msg, h2, h3, _⟩ := h
  exact ⟨h1, msg, by simpa using h2, h3⟩

/-- Claim C2 counterexample: with the message already durably inserted,
a failing touch still turns the response into a 500, not the claimed
success with the message id: the touch is not wrapped in try/catch. -/
theorem sendMessage_touch_failure_counterexample :
    (sendMessage ⟨[⟨1, none⟩, ⟨2, none⟩], [⟨10, 1, 2, 0, 0, none⟩], []⟩
      1 10 (some "hi") none ⟨100, 5, false, true⟩).1.status = 500 ∧
    (sendMessage ⟨[⟨1, none⟩, ⟨2, none⟩], [⟨10, 1, 2, 0, 0, none⟩], []⟩
      1 10 (some "hi") none ⟨100, 5, false, true⟩).1.status ≠ 201 ∧
    (sendMessage ⟨[⟨1, none⟩, ⟨2, none⟩], [⟨10, 1, 2, 0, 0, none⟩], []⟩
      1 10 (some "hi") none ⟨100, 5, false, true⟩).2.1.messages.length = 1 := by
  refine ⟨?_, ?_, ?_⟩ <;> decide

/-- Condition of claim C7 on an inbound request: the bearer credential is
missing, the Token Authority is unreachable, or the Authority reports
the credential invalid (either through an error-status reply, which
axios surfaces as a raised error, or through a success reply carrying
valid = false). -/
def credentialBad (token : Option String) (authority : AuthorityOutcome) : Bool :=
  match token with
  | none => true
  | some _ =>
    match authority with
    | AuthorityOutcome.unreachable => true
    | AuthorityOutcome.reply status valid _ _ _ => decide (300 ≤ status) || !valid

/-- Claim C7 (amended) theorem: whenever the credential is missing, the
Authority unreachable, or the credential reported invalid, the middleware
rejects with 401 (missing credential, or a success-status reply carrying
valid = false) or 403 (unreachable, or an error-status reply), and both
guarded endpoints return that rejection with storage untouched and no
event published: the relay fails closed. -/
theorem authenticateToken_fails_closed (token : Option String)
    (authority : AuthorityOutcome) (st : ChatState)
    (chatId page limit now : Nat) (content : Option String)
    (mt : Option String) (env : SendEnv)
    (hbad : credentialBad token authority = true) :
    ∃ r : Response,
      authenticateToken token authority = AuthResult.reject r ∧
      (r.status = 401 ∨ r.status = 403) ∧
      guardedGetMessages token authority st chatId page limit now = (r, st) ∧
      guardedSendMessage token authority st chatId content mt env = (r, st, []) := by
  cases token with
  | none =>
    exact ⟨⟨401, Body.error "Access token required"⟩, rfl, Or.inl rfl, rfl, rfl⟩
  | some tok =>
    cases authority with
    | unreachable =>
      exact ⟨⟨403, Body.error "Token verification failed"⟩, rfl, Or.inr rfl,
        rfl, rfl⟩
    | reply status valid uid email role =>
      by_cases hs : 300 ≤ status
      · refine ⟨⟨403, Body.error "Token verification failed"⟩, ?_, Or.inr rfl,
          ?_, ?_⟩ <;>
          simp [authenticateToken, guardedGetMessages, guardedSendMessage, hs]
      · have hv : valid = false := by
          simp [credentialBad, hs] at hbad
          exact hbad
        refine ⟨⟨401, Body.error "Invalid token"⟩, ?_, Or.inl rfl, ?_, ?_⟩ <;>
          simp [authenticateToken, guardedGetMessages, guardedSendMessage, hs, hv]

/-- Claim C7 (amended) witness: a missing token, an unreachable
Authority, and an invalid-reply Authority all produce a rejection that
leaves a concrete state untouched. -/
theorem authenticateToken_fails_closed_witness :
    (∃ r : Response,
      authenticateToken none AuthorityOutcome.unreachable = AuthResult.reject r ∧
      (r.status = 401 ∨ r.status = 403) ∧
      guardedGetMessages none AuthorityOutcome.unreachable
        ⟨[⟨1, none⟩], [⟨10, 1, 2, 0, 0, none⟩], []⟩ 10 1 50 9 =
        (r, ⟨[⟨1, none⟩], [⟨10, 1, 2, 0, 0, none⟩], []⟩)) ∧
    (∃ r : Response,
      authenticateToken (some "tok") AuthorityOutcome.unreachable =
        AuthResult.reject r ∧
      (r.status = 401 ∨ r.status = 403) ∧
      guardedSendMessage (some "tok") AuthorityOutcome.unreachable
        ⟨[⟨1, none⟩], [⟨10, 1, 2, 0, 0, none⟩], []⟩ 10 (some "hi") none
        ⟨100, 5, true, true⟩ =
        (r, ⟨[⟨1, none⟩], [⟨10, 1, 2, 0, 0, none⟩], []⟩, [])) := by
  constructor
  · obtain ⟨r, h1, h2, h3, _⟩ := authenticateToken_fails_closed none
      AuthorityOutcome.unreachable ⟨[⟨1, none⟩], [⟨10, 1, 2, 0, 0, none⟩], []⟩
      10 1 50 9 (some "hi") none ⟨100, 5, true, true⟩ (by decide)
    exact ⟨r, h1, h2, h3⟩
  · obtain ⟨r, h1, h2, _, h4⟩ := authenticateToken_fails_closed (some "tok")
      AuthorityOutcome.unreachable ⟨[⟨1, none⟩], [⟨10, 1, 2, 0, 0, none⟩], []⟩
      10 1 50 9 (some "hi") none ⟨100, 5, true, true⟩ (by decide)
    exact ⟨r, h1, h2, h4⟩

/-- Claim C7 counterexample: an unreachable Authority is rejected with
status 403 (the catch branch), not with the 401 Unauthorized the claim
states; the same holds when the Authority replies with an error status,
which is how the real /validate endpoint reports an invalid token. -/
theorem authenticateToken_unreachable_counterexample :
    authenticateToken (some "tok") AuthorityOutcome.unreachable =
      AuthResult.reject ⟨403, Body.error "Token verification failed"⟩ ∧
    authenticateToken (some "tok") (AuthorityOutcome.reply 401 false 0 "" "") =
      AuthResult.reject ⟨403, Body.error "Token verification failed"⟩ ∧
    (403 : Nat) ≠ 401 := by
  refine ⟨rfl, ?_, by decide⟩
  simp [authenticateToken]

lemma findValidTokenRows_sound {st : AuthState} {t : RotTok} {now : Nat}
    {x : TokenRow × AuthUser} (hx : x ∈ findValidTokenRows st t now) :
    x.1 ∈ st.tokens ∧ x.1.token = t ∧ now < x.1.expires_at := by
  unfold findValidTokenRows at hx
  rw [List.mem_filterMap] at hx
  obtain ⟨r, hr, hf⟩ := hx
  by_cases hcond : r.token = t ∧ now < r.expires_at
  · rw [if_pos hcond] at hf
    cases hfind : st.users.find? (fun u => u.id == r.user_id && u.deleted_at.isNone) with
    | none =>
      rw [hfind] at hf
      simp at hf
    | some u =>
      rw [hfind] at hf
      obtain rfl : (r, u) = x := by injection hf
      exact ⟨hr, hcond.1, hcond.2⟩
  · rw [if_neg hcond] at hf
    simp at hf

/-- Claim C3 theorem: the refresh handler both validates the presented
rotation token against durable storage and replaces the stored row in
the same step, so a second refresh presenting the original token fails
with a 401 invalid-or-expired error and changes nothing, and a refresh
presenting a token absent from storage (or only stored expired), or one
past its signature expiry, fails with 401 and changes nothing. -/
theorem rotate_single_use (st : AuthState) (now n now2 n2 : Nat) (t : RotTok)
    (huniq : ∀ r1 ∈ st.tokens, ∀ r2 ∈ st.tokens,
      r1.token = t → r2.token = t → r1.id = r2.id)
    (hfresh : t.exp ≠ now + REFRESH_TTL)
    (hok : (refresh st now (some (Presented.signed t)) n).1.status = 200) :
    ((refresh (refresh st now (some (Presented.signed t)) n).2 now2
        (some (Presented.signed t)) n2).1.status = 401 ∧
      (refresh (refresh st now (some (Presented.signed t)) n).2 now2
        (some (Presented.signed t)) n2).2 =
        (refresh st now (some (Presented.signed t)) n).2) ∧
    (∀ t2 : RotTok, (∀ r ∈ st.tokens, r.token ≠ t2 ∨ r.expires_at ≤ now) →
      (refresh st now (some (Presented.signed t2)) n).1.status = 401 ∧
      (refresh st now (some (Presented.signed t2)) n).2 = st) ∧
    (∀ t3 : RotTok, t3.exp ≤ now →
      (refresh st now (some (Presented.signed t3)) n).1.status = 401 ∧
      (refresh st now (some (Presented.signed t3)) n).2 = st) := by
  have hexp : ¬ t.exp ≤ now := by
    intro h
    simp [refresh, h] at hok
  have hrows_ne : findValidTokenRows st t now ≠ [] := by
    intro h
    simp [refresh, hexp, h] at hok
  obtain ⟨hd, tl, hrows⟩ : ∃ hd tl, findValidTokenRows st t now = hd :: tl := by
    cases h : findValidTokenRows st t now with
    | nil => exact absurd h hrows_ne
    | cons a b => exact ⟨a, b, rfl⟩
  obtain ⟨row, u⟩ := hd
  have hsound : row ∈ st.tokens ∧ row.token = t ∧ now < row.expires_at :=
    findValidTokenRows_sound (x := (row, u))
      (by rw [hrows]; exact List.mem_cons_self _ _)
  obtain ⟨st1, hst1def⟩ : ∃ s : AuthState,
      s = { st with tokens := st.tokens.map (fun r =>
        if r.id == row.id then
          { r with
            token := (generateTokens u.id u.email u.role now n).2,
            expires_at := now + REFRESH_TTL }
        else r) } := ⟨_, rfl⟩
  have hst1 : (refresh st now (some (Presented.signed t)) n).2 = st1 := by
    rw [hst1def]
    simp [refresh, hexp, hrows]
  have hnone : ∀ r ∈ st1.tokens, r.token ≠ t := by
    rw [hst1def]
    intro r hr
    simp only [List.mem_map] at hr
    obtain ⟨r0, hr0, rfl⟩ := hr
    by_cases hid : (r0.id == row.id) = true
    · rw [if_pos hid]
      intro hcon
      have hexpeq := congrArg RotTok.exp hcon
      simp [generateTokens] at hexpeq
      exact hfresh hexpeq.symm
    · rw [if_neg hid]
      intro hcon
      have hideq := huniq r0 hr0 row hsound.1 hcon hsound.2.1
      simp only [beq_iff_eq] at hid
      exact hid hideq
  have hlookup2 : ∀ now3, findValidTokenRows st1 t now3 = [] := by
    intro now3
    unfold findValidTokenRows
    rw [List.filterMap_eq_nil_iff]
    intro a ha
    have hneg : ¬(a.token = t ∧ now3 < a.expires_at) := by
      rintro ⟨h1, _⟩
      exact hnone a ha h1
    rw [if_neg hneg]
  refine ⟨⟨?_, ?_⟩, ?_, ?_⟩
  · rw [hst1]
    by_cases hexp2 : t.exp ≤ now2
    · simp [refresh, hexp2]
    · simp [refresh, hexp2, hlookup2 now2]
  · rw [hst1]
    by_cases hexp2 : t.exp ≤ now2
    · simp [refresh, hexp2]
    · simp [refresh, hexp2, hlookup2 now2]
  · intro t2 habs
    by_cases hexp2 : t2.exp ≤ now
    · exact ⟨by simp [refresh, hexp2], by simp [refresh, hexp2]⟩
    · have hl : findValidTokenRows st t2 now = [] := by
        unfold findValidTokenRows
        rw [List.filterMap_eq_nil_iff]
        intro a ha
        have hneg : ¬(a.token = t2 ∧ now < a.expires_at) := by
          rintro ⟨h1, h2⟩
          rcases habs a ha with hna | hexp3
          · exact hna h1
          · omega
        rw [if_neg hneg]
      exact ⟨by simp [refresh, hexp2, hl], by simp [refresh, hexp2, hl]⟩
  · intro t3 h3
    exact ⟨by simp [refresh, h3], by simp [refresh, h3]⟩

/-- Claim C3 witness: a concrete store with one user and one stored
rotation token; the first refresh succeeds and the second refresh with
the same original token is rejected with 401 and changes nothing. -/
theorem rotate_single_use_witness :
    (refresh ⟨[⟨1, "a", "caregiver", none⟩], [⟨1, 1, ⟨1, "a", "caregiver", 50, 0⟩, 100⟩]⟩
      10 (some (Presented.signed ⟨1, "a", "caregiver", 50, 0⟩)) 1).1.status = 200 ∧
    (refresh (refresh ⟨[⟨1, "a", "caregiver", none⟩],
        [⟨1, 1, ⟨1, "a", "caregiver", 50, 0⟩, 100⟩]⟩
      10 (some (Presented.signed ⟨1, "a", "caregiver", 50, 0⟩)) 1).2
      11 (some (Presented.signed ⟨1, "a", "caregiver", 50, 0⟩)) 2).1.status = 401 ∧
    (refresh (refresh ⟨[⟨1, "a", "caregiver", none⟩],
        [⟨1, 1, ⟨1, "a", "caregiver", 50, 0⟩, 100⟩]⟩
      10 (some (Presented.signed ⟨1, "a", "caregiver", 50, 0⟩)) 1).2
      11 (some (Presented.signed ⟨1, "a", "caregiver", 50, 0⟩)) 2).2 =
      (refresh ⟨[⟨1, "a", "caregiver", none⟩],
        [⟨1, 1, ⟨1, "a", "caregiver", 50, 0⟩, 100⟩]⟩
      10 (some (Presented.signed ⟨1, "a", "caregiver", 50, 0⟩)) 1).2 := by
  have hok : (refresh ⟨[⟨1, "a", "caregiver", none⟩],
      [⟨1, 1, ⟨1, "a", "caregiver", 50, 0⟩, 100⟩]⟩
      10 (some (Presented.signed ⟨1, "a", "caregiver", 50, 0⟩)) 1).1.status = 200 := by
    decide
  have h := rotate_single_use
    ⟨[⟨1, "a", "caregiver", none⟩], [⟨1, 1, ⟨1, "a", "caregiver", 50, 0⟩, 100⟩]⟩
    10 1 11 2 ⟨1, "a", "caregiver", 50, 0⟩
    (by decide) (by decide) hok
  exact ⟨hok, h.1.1, h.1.2⟩
